import Mathlib

/-
Shallow embedding of src/src/platforms/rcore_nx.c, the Nintendo Switch (NX)
platform backend of raylib.  C floats/doubles are modelled as exact rationals,
machine integers as Nat/Int with explicit mod 2^64 where the C code relies on
unsigned wraparound, and the EGL/libnx environment as explicit inputs.
TRACELOG calls are modelled as an output log of (level, message) pairs.
-/

namespace RcoreNX

/-- Log levels used by the TRACELOG calls in rcore_nx.c. -/
inductive LogLevel where
  | info
  | warning
  | fatal
deriving DecidableEq, Repr

/-- A trace log: the sequence of TRACELOG emissions of one call. -/
abbrev Log := List (LogLevel × String)

/-- The raylib Vector2 type, with float components modelled as exact rationals. -/
structure Vector2 where
  x : ℚ
  y : ℚ
deriving DecidableEq, Repr

/-! ## Window and core state (the parts of CORE touched by this backend) -/

/-- Fields of CORE.Window written or read by InitPlatform and WindowShouldClose. -/
structure WindowState where
  ready : Bool
  shouldClose : Bool
  fullscreen : Bool
  screenWidth : Int
  screenHeight : Int
  displayWidth : Int
  displayHeight : Int
  renderWidth : Int
  renderHeight : Int
  currentFboWidth : Int
  currentFboHeight : Int
deriving DecidableEq, Repr

/-- Representative fields of the shared CORE struct that functions in
rcore_nx.c can mutate (window data, min/max sizes, title, cursor and mouse
position).  The stub functions below must leave all of it unchanged. -/
structure CoreState where
  window : WindowState
  windowTitle : String
  screenMinWidth : Int
  screenMinHeight : Int
  screenMaxWidth : Int
  screenMaxHeight : Int
  cursorHidden : Bool
  mouseCurrentPosition : Vector2
  mousePreviousPosition : Vector2
deriving DecidableEq, Repr

/-! ## WindowShouldClose (rcore_nx.c lines 88-93) -/

/-- WindowShouldClose: returns true when appletMainLoop() is false; otherwise
returns CORE.Window.shouldClose when CORE.Window.ready, else true.
`mainLoop` models the appletMainLoop() result. -/
def WindowShouldClose (mainLoop ready shouldClose : Bool) : Bool :=
  if !mainLoop then true
  else if ready then shouldClose
  else true

/-! ## ClosePlatform (rcore_nx.c lines 814-840) -/

/-- The EGL null display sentinel EGL_NO_DISPLAY, modelled as handle 0. -/
def EGL_NO_DISPLAY : Nat := 0

/-- The EGL null surface sentinel EGL_NO_SURFACE, modelled as handle 0. -/
def EGL_NO_SURFACE : Nat := 0

/-- The EGL null context sentinel EGL_NO_CONTEXT, modelled as handle 0. -/
def EGL_NO_CONTEXT : Nat := 0

/-- The native EGL handles held in the platform-private struct. -/
structure PlatformHandles where
  device : Nat
  surface : Nat
  context : Nat
deriving DecidableEq, Repr

/-- EGL calls that ClosePlatform can issue, recorded as a trace. -/
inductive EGLCall where
  | makeCurrentNull
  | destroySurface (h : Nat)
  | destroyContext (h : Nat)
  | terminateDisplay (h : Nat)
deriving DecidableEq, Repr

/-- ClosePlatform: when the device handle is not EGL_NO_DISPLAY it unbinds the
context, destroys the surface and context (each guarded by a check of its
handle), terminates the display and resets every handle to its null sentinel;
otherwise it does nothing to the handles. -/
def ClosePlatform (p : PlatformHandles) : PlatformHandles × List EGLCall :=
  if p.device ≠ EGL_NO_DISPLAY then
    ({ device := EGL_NO_DISPLAY
       surface := if p.surface ≠ EGL_NO_SURFACE then EGL_NO_SURFACE else p.surface
       context := if p.context ≠ EGL_NO_CONTEXT then EGL_NO_CONTEXT else p.context },
     [EGLCall.makeCurrentNull] ++
       (if p.surface ≠ EGL_NO_SURFACE then [EGLCall.destroySurface p.surface] else []) ++
       (if p.context ≠ EGL_NO_CONTEXT then [EGLCall.destroyContext p.context] else []) ++
       [EGLCall.terminateDisplay p.device])
  else (p, [])

/-! ## Gamepad axis values (rcore_nx.c lines 513-521) -/

/-- libnx HidNpadButton_ZL bit mask (bit 8). -/
def HidNpadButton_ZL : Nat := 2 ^ 8

/-- libnx HidNpadButton_ZR bit mask (bit 9). -/
def HidNpadButton_ZR : Nat := 2 ^ 9

/-- An analog stick axis value as PollInputEvents writes it into
CORE.Input.Gamepad.axisState: the raw SDK stick coordinate divided by
32767.0f, with the float arithmetic modelled exactly over the rationals. -/
def stickAxisValue (raw : Int) : ℚ := (raw : ℚ) / 32767

/-- A trigger axis value as PollInputEvents writes it: 1.0f when the
corresponding button bit is held in kHeld, else 0.0f. -/
def triggerAxisValue (kHeld mask : Nat) : ℚ :=
  if kHeld &&& mask ≠ 0 then 1 else 0

/-! ## InitPlatform (rcore_nx.c lines 673-811) -/

/-- Outcomes of the external EGL calls made by InitPlatform:
displayOk models eglGetDisplay returning a handle other than EGL_NO_DISPLAY,
initOk models eglInitialize returning a value other than EGL_FALSE,
contextOk models eglCreateContext returning other than EGL_NO_CONTEXT, and
makeCurrentOk models eglMakeCurrent returning other than EGL_FALSE.
The result of eglCreateWindowSurface is never checked by the code. -/
structure EGLEnv where
  displayOk : Bool
  initOk : Bool
  contextOk : Bool
  makeCurrentOk : Bool
deriving DecidableEq, Repr

/-- InitPlatform: sets screen/display size to 1280x720 and fullscreen, then
performs the EGL setup.  On eglGetDisplay or eglInitialize failure it logs a
warning and executes `return false` (the C false converts to int 0 in this
int-returning function).  On eglCreateContext failure it logs a warning and
returns -1.  If eglMakeCurrent succeeds it sets CORE.Window.ready, copies the
screen size into the render and currentFbo sizes, logs, and falls through to
the tail that re-assigns the same render/fbo sizes and returns 0; otherwise it
logs a fatal message and returns -1. -/
def InitPlatform (env : EGLEnv) (w0 : WindowState) : Int × WindowState × Log :=
  let w := { w0 with
    screenWidth := 1280, screenHeight := 720,
    displayWidth := 1280, displayHeight := 720,
    fullscreen := true }
  if env.displayOk = false then
    (0, w, [(LogLevel.warning, "DISPLAY: Failed to initialize EGL device")])
  else if env.initOk = false then
    (0, w, [(LogLevel.warning, "DISPLAY: Failed to initialize EGL device")])
  else if env.contextOk = false then
    (-1, w, [(LogLevel.warning, "DISPLAY: Failed to create EGL context")])
  else if env.makeCurrentOk then
    let w := { w with
      ready := true,
      renderWidth := w.screenWidth, renderHeight := w.screenHeight,
      currentFboWidth := w.screenWidth, currentFboHeight := w.screenHeight }
    (0, w,
      [(LogLevel.info, "DISPLAY: Device initialized successfully"),
       (LogLevel.info, "PLATFORM: NX: Initialized successfully")])
  else
    (-1, w, [(LogLevel.fatal, "PLATFORM: Failed to initialize graphics device")])

/-- A concrete pre-initialization window state: nothing ready, all sizes 0, as
in the zero-initialized global CORE struct. -/
def w0sample : WindowState :=
  { ready := false, shouldClose := false, fullscreen := false,
    screenWidth := 0, screenHeight := 0, displayWidth := 0, displayHeight := 0,
    renderWidth := 0, renderHeight := 0,
    currentFboWidth := 0, currentFboHeight := 0 }

/-! ## Mouse-button update block of PollInputEvents (rcore_nx.c lines 619-647) -/

/-- raylib MOUSE_BUTTON_LEFT. -/
def MOUSE_BUTTON_LEFT : Nat := 0

/-- raylib MOUSE_BUTTON_RIGHT. -/
def MOUSE_BUTTON_RIGHT : Nat := 1

/-- raylib MOUSE_BUTTON_MIDDLE. -/
def MOUSE_BUTTON_MIDDLE : Nat := 2

/-- libnx HidNpadButton_L bit mask (bit 6). -/
def HidNpadButton_L : Nat := 2 ^ 6

/-- libnx HidNpadButton_R bit mask (bit 7). -/
def HidNpadButton_R : Nat := 2 ^ 7

/-- raylib GAMEPAD_BUTTON_RIGHT_THUMB enum value (used directly as a bit mask
by the code at line 627). -/
def GAMEPAD_BUTTON_RIGHT_THUMB : Nat := 17

/-- Pointwise array store: models a C array assignment a[i] = v. -/
def store {α : Type} (f : Nat → α) (i : Nat) (v : α) : Nat → α :=
  fun j => if j = i then v else f j

/-- Mouse button and wheel fields of CORE.Input.Mouse. -/
structure MouseState where
  currentButtonState : Nat → Int
  previousButtonState : Nat → Int
  currentWheelMove : Vector2
  previousWheelMove : Vector2

/-- The mouse-button/wheel section of PollInputEvents for one connected
gamepad, translated statement by statement in source order (lines 619-647):
save previous LEFT, write current RIGHT from ZL; save previous MIDDLE, write
current MIDDLE from the GAMEPAD_BUTTON_RIGHT_THUMB mask; save previous RIGHT,
write current LEFT from ZR; then save previous wheel and write current wheel
from L/R. -/
def pollMouseButtons (kHeld : Nat) (m : MouseState) : MouseState :=
  let m := { m with previousButtonState := store m.previousButtonState MOUSE_BUTTON_LEFT (m.currentButtonState MOUSE_BUTTON_LEFT) }
  let m := { m with currentButtonState := store m.currentButtonState MOUSE_BUTTON_RIGHT (if kHeld &&& HidNpadButton_ZL ≠ 0 then 1 else 0) }
  let m := { m with previousButtonState := store m.previousButtonState MOUSE_BUTTON_MIDDLE (m.currentButtonState MOUSE_BUTTON_MIDDLE) }
  let m := { m with currentButtonState := store m.currentButtonState MOUSE_BUTTON_MIDDLE (if kHeld &&& GAMEPAD_BUTTON_RIGHT_THUMB ≠ 0 then 1 else 0) }
  let m := { m with previousButtonState := store m.previousButtonState MOUSE_BUTTON_RIGHT (m.currentButtonState MOUSE_BUTTON_RIGHT) }
  let m := { m with currentButtonState := store m.currentButtonState MOUSE_BUTTON_LEFT (if kHeld &&& HidNpadButton_ZR ≠ 0 then 1 else 0) }
  let m := { m with previousWheelMove := m.currentWheelMove }
  let m := { m with currentWheelMove := if kHeld &&& HidNpadButton_L ≠ 0 then (⟨0, -1⟩ : Vector2) else if kHeld &&& HidNpadButton_R ≠ 0 then (⟨0, 1⟩ : Vector2) else (⟨0, 0⟩ : Vector2) }
  m

/-! ## Stub window/monitor/input functions (rcore_nx.c lines 96-295, 390-407)

Each function takes the shared CORE state and returns the (possibly updated)
state, the TRACELOG output of the call, and its return value when it has one.
The stub bodies in the source consist of a single TRACELOG plus, for the
value-returning ones, a fixed return. -/

/-- A single warning-level TRACELOG emission. -/
def warnLog (msg : String) : Log := [(LogLevel.warning, msg)]

/-- ToggleFullscreen stub (line 96). -/
def ToggleFullscreen (c : CoreState) : CoreState × Log :=
  (c, warnLog "ToggleFullscreen() not available on target platform")

/-- ToggleBorderlessWindowed stub (line 102). -/
def ToggleBorderlessWindowed (c : CoreState) : CoreState × Log :=
  (c, warnLog "ToggleBorderlessWindowed() not available on target platform")

/-- MaximizeWindow stub (line 108). -/
def MaximizeWindow (c : CoreState) : CoreState × Log :=
  (c, warnLog "MaximizeWindow() not available on target platform")

/-- MinimizeWindow stub (line 114). -/
def MinimizeWindow (c : CoreState) : CoreState × Log :=
  (c, warnLog "MinimizeWindow() not available on target platform")

/-- RestoreWindow stub (line 120). -/
def RestoreWindow (c : CoreState) : CoreState × Log :=
  (c, warnLog "RestoreWindow() not available on target platform")

/-- SetWindowState stub (line 126). -/
def SetWindowState (c : CoreState) (flags : Int) : CoreState × Log :=
  (c, warnLog "SetWindowState() not available on target platform")

/-- ClearWindowState stub (line 132). -/
def ClearWindowState (c : CoreState) (flags : Int) : CoreState × Log :=
  (c, warnLog "ClearWindowState() not available on target platform")

/-- SetWindowIcon stub (line 138); the Image argument is modelled opaquely. -/
def SetWindowIcon (c : CoreState) (image : Nat) : CoreState × Log :=
  (c, warnLog "SetWindowIcon() not available on target platform")

/-- SetWindowIcons stub (line 144). -/
def SetWindowIcons (c : CoreState) (images : List Nat) (count : Int) : CoreState × Log :=
  (c, warnLog "SetWindowIcons() not available on target platform")

/-- SetWindowTitle (line 150): one of the few mutating functions. -/
def SetWindowTitle (c : CoreState) (title : String) : CoreState × Log :=
  ({ c with windowTitle := title }, [])

/-- SetWindowPosition stub (line 156). -/
def SetWindowPosition (c : CoreState) (x y : Int) : CoreState × Log :=
  (c, warnLog "SetWindowPosition() not available on target platform")

/-- SetWindowMonitor stub (line 162). -/
def SetWindowMonitor (c : CoreState) (monitor : Int) : CoreState × Log :=
  (c, warnLog "SetWindowMonitor() not available on target platform")

/-- SetWindowMinSize (line 168): mutating. -/
def SetWindowMinSize (c : CoreState) (width height : Int) : CoreState × Log :=
  ({ c with screenMinWidth := width, screenMinHeight := height }, [])

/-- SetWindowMaxSize (line 175): mutating. -/
def SetWindowMaxSize (c : CoreState) (width height : Int) : CoreState × Log :=
  ({ c with screenMaxWidth := width, screenMaxHeight := height }, [])

/-- SetWindowSize stub (line 182). -/
def SetWindowSize (c : CoreState) (width height : Int) : CoreState × Log :=
  (c, warnLog "SetWindowSize() not available on target platform")

/-- SetWindowOpacity stub (line 188). -/
def SetWindowOpacity (c : CoreState) (opacity : ℚ) : CoreState × Log :=
  (c, warnLog "SetWindowOpacity() not available on target platform")

/-- SetWindowFocused stub (line 194). -/
def SetWindowFocused (c : CoreState) : CoreState × Log :=
  (c, warnLog "SetWindowFocused() not available on target platform")

/-- GetWindowHandle stub (line 200): returns NULL, modelled as none. -/
def GetWindowHandle (c : CoreState) : CoreState × Log × Option Nat :=
  (c, warnLog "GetWindowHandle() not implemented on target platform", none)

/-- GetMonitorCount stub (line 207): returns 1. -/
def GetMonitorCount (c : CoreState) : CoreState × Log × Int :=
  (c, warnLog "GetMonitorCount() not implemented on target platform", 1)

/-- GetCurrentMonitor stub (line 214): returns 0. -/
def GetCurrentMonitor (c : CoreState) : CoreState × Log × Int :=
  (c, warnLog "GetCurrentMonitor() not implemented on target platform", 0)

/-- GetMonitorPosition stub (line 221): returns (0, 0). -/
def GetMonitorPosition (c : CoreState) (monitor : Int) : CoreState × Log × Vector2 :=
  (c, warnLog "GetMonitorPosition() not implemented on target platform", ⟨0, 0⟩)

/-- GetMonitorWidth stub (line 228): returns 0. -/
def GetMonitorWidth (c : CoreState) (monitor : Int) : CoreState × Log × Int :=
  (c, warnLog "GetMonitorWidth() not implemented on target platform", 0)

/-- GetMonitorHeight stub (line 235): returns 0. -/
def GetMonitorHeight (c : CoreState) (monitor : Int) : CoreState × Log × Int :=
  (c, warnLog "GetMonitorHeight() not implemented on target platform", 0)

/-- GetMonitorPhysicalWidth stub (line 242): returns 0. -/
def GetMonitorPhysicalWidth (c : CoreState) (monitor : Int) : CoreState × Log × Int :=
  (c, warnLog "GetMonitorPhysicalWidth() not implemented on target platform", 0)

/-- GetMonitorPhysicalHeight stub (line 249): returns 0. -/
def GetMonitorPhysicalHeight (c : CoreState) (monitor : Int) : CoreState × Log × Int :=
  (c, warnLog "GetMonitorPhysicalHeight() not implemented on target platform", 0)

/-- GetMonitorRefreshRate stub (line 256): returns 0. -/
def GetMonitorRefreshRate (c : CoreState) (monitor : Int) : CoreState × Log × Int :=
  (c, warnLog "GetMonitorRefreshRate() not implemented on target platform", 0)

/-- GetMonitorName stub (line 263): returns the empty string. -/
def GetMonitorName (c : CoreState) (monitor : Int) : CoreState × Log × String :=
  (c, warnLog "GetMonitorName() not implemented on target platform", "")

/-- GetWindowPosition stub (line 270): returns (0, 0). -/
def GetWindowPosition (c : CoreState) : CoreState × Log × Vector2 :=
  (c, warnLog "GetWindowPosition() not implemented on target platform", ⟨0, 0⟩)

/-- GetWindowScaleDPI stub (line 277): returns (1.0f, 1.0f). -/
def GetWindowScaleDPI (c : CoreState) : CoreState × Log × Vector2 :=
  (c, warnLog "GetWindowScaleDPI() not implemented on target platform", ⟨1, 1⟩)

/-- SetClipboardText stub (line 284). -/
def SetClipboardText (c : CoreState) (text : String) : CoreState × Log :=
  (c, warnLog "SetClipboardText() not implemented on target platform")

/-- GetClipboardText stub (line 291): returns NULL, modelled as none. -/
def GetClipboardText (c : CoreState) : CoreState × Log × Option String :=
  (c, warnLog "GetClipboardText() not implemented on target platform", none)

/-- SetGamepadMappings stub (line 390): returns 0. -/
def SetGamepadMappings (c : CoreState) (mappings : Option String) : CoreState × Log × Int :=
  (c, warnLog "SetGamepadMappings() not implemented on target platform", 0)

/-- SetMouseCursor stub (line 404). -/
def SetMouseCursor (c : CoreState) (cursor : Int) : CoreState × Log :=
  (c, warnLog "SetMouseCursor() not implemented on target platform")

/-- A concrete CORE state used by closed evaluation theorems. -/
def coreSample : CoreState :=
  { window := { ready := true, shouldClose := false, fullscreen := true,
                screenWidth := 1280, screenHeight := 720,
                displayWidth := 1280, displayHeight := 720,
                renderWidth := 1280, renderHeight := 720,
                currentFboWidth := 1280, currentFboHeight := 720 },
    windowTitle := "raylib app",
    screenMinWidth := 0, screenMinHeight := 0,
    screenMaxWidth := 0, screenMaxHeight := 0,
    cursorHidden := false,
    mouseCurrentPosition := ⟨0, 0⟩,
    mousePreviousPosition := ⟨0, 0⟩ }

/-! ## Touch polling section of PollInputEvents (rcore_nx.c lines 441-457) -/

/-- raylib MAX_TOUCH_POINTS (config.h default). -/
def MAX_TOUCH_POINTS : Nat := 8

/-- One touch sample of HidTouchScreenState, with float coordinates modelled
as rationals. -/
structure HidTouchState where
  x : ℚ
  y : ℚ
  finger_id : Nat
  delta_time : Int

/-- Touch fields of CORE.Input.Touch together with platform.touchDeltaTime. -/
structure TouchState where
  position : Nat → Vector2
  pointId : Nat → Nat
  pointCount : Nat
  touchDeltaTime : Nat → Int

/-- The body of the for-loop over touch indices 0..count-1: each iteration i
stores the sampled x/y into position[i], finger_id into pointId[i] and
delta_time into touchDeltaTime[i].  `pollTouchLoop touches t n` runs the first
n iterations in order. -/
def pollTouchLoop (touches : Nat → HidTouchState) (t : TouchState) : Nat → TouchState
  | 0 => t
  | n + 1 =>
    let t := pollTouchLoop touches t n
    { t with
      position := store t.position n ⟨(touches n).x, (touches n).y⟩,
      pointId := store t.pointId n (touches n).finger_id,
      touchDeltaTime := store t.touchDeltaTime n (touches n).delta_time }

/-- The touch section of PollInputEvents: when hidGetTouchScreenStates
delivers a state (hasState), run the loop over indices 0..count-1 and then set
CORE.Input.Touch.pointCount to the reported count; otherwise leave the touch
state untouched. -/
def pollTouch (hasState : Bool) (count : Nat) (touches : Nat → HidTouchState)
    (t : TouchState) : TouchState :=
  if hasState then { pollTouchLoop touches t count with pointCount := count }
  else t

/-- Concrete touch samples used by the C10 witness. -/
def sampleTouches : Nat → HidTouchState :=
  fun i => ⟨(i : ℚ), (2 * i : ℚ), i + 1, 100⟩

/-- A concrete pre-poll touch state used by the C10 witness. -/
def sampleTouchState : TouchState :=
  { position := fun _ => ⟨7, 7⟩, pointId := fun _ => 9,
    pointCount := 3, touchDeltaTime := fun _ => 3 }

/-! ## GetTime (rcore_nx.c lines 338-348) -/

/-- Unsigned 64-bit subtraction: nanoSeconds - CORE.Time.base is computed on
unsigned long long, wrapping modulo 2^64. -/
def u64Sub (a b : Nat) : Nat := (a + 2 ^ 64 - b) % 2 ^ 64

/-- GetTime: the monotonic-clock reading in nanoseconds minus the stored time
base, scaled to seconds.  The 1e-9 double factor is modelled as the exact
rational 1/10^9. -/
def GetTime (reading base : Nat) : ℚ :=
  ((u64Sub reading base : Nat) : ℚ) * (1 / 10 ^ 9)

end RcoreNX

namespace RcoreNX

/-! ## Theorems -/

/-- C1 (failing input): with a gamepad connected, prior-frame
currentButtonState[MOUSE_BUTTON_RIGHT] = 0 and ZL held (kHeld = 256), the
mouse-button block writes currentButtonState[MOUSE_BUTTON_RIGHT] := 1 first
(line 621) and only afterwards saves previousButtonState[MOUSE_BUTTON_RIGHT]
from it (line 633), so after PollInputEvents previous RIGHT equals the value
written to current during the same call (1), not the prior frame value (0). -/
theorem pollMouseButtons_prev_right_same_frame :
    (pollMouseButtons HidNpadButton_ZL
        ⟨fun _ => 0, fun _ => 0, ⟨0, 0⟩, ⟨0, 0⟩⟩).previousButtonState
        MOUSE_BUTTON_RIGHT = 1 ∧
    (fun (_ : Nat) => (0 : Int)) MOUSE_BUTTON_RIGHT = 0 ∧
    (pollMouseButtons HidNpadButton_ZL
        ⟨fun _ => 0, fun _ => 0, ⟨0, 0⟩, ⟨0, 0⟩⟩).currentButtonState
        MOUSE_BUTTON_RIGHT = 1 := by
  refine ⟨?_, rfl, ?_⟩ <;> rfl

/-- C2 (failing input): when eglGetDisplay fails (displayOk = false) the code
executes `return false`, which is int 0 — the very value the success path
returns — so the failure is not signalled by a code distinct from success;
moreover the failure path leaves CORE.Window.ready false. -/
theorem InitPlatform_display_failure_returns_success_code :
    (InitPlatform ⟨false, true, true, true⟩ w0sample).1 = 0 ∧
    (InitPlatform ⟨true, true, true, true⟩ w0sample).1 = 0 ∧
    (InitPlatform ⟨false, true, true, true⟩ w0sample).2.1.ready = false := by
  refine ⟨rfl, rfl, rfl⟩

/-- C3 (failing input): on the eglGetDisplay-failure path InitPlatform
returns 0 (its success code) while CORE.Window.ready is false and the render
size (still 0x0) differs from the screen size (1280x720), contradicting the
claim that a 0 return implies ready with render equal to screen. -/
theorem InitPlatform_zero_without_ready :
    (InitPlatform ⟨false, true, true, true⟩ w0sample).1 = 0 ∧
    (InitPlatform ⟨false, true, true, true⟩ w0sample).2.1.ready = false ∧
    (InitPlatform ⟨false, true, true, true⟩ w0sample).2.1.renderWidth ≠
      (InitPlatform ⟨false, true, true, true⟩ w0sample).2.1.screenWidth := by
  refine ⟨rfl, rfl, by decide⟩

/-- C9: WindowShouldClose returns true whenever the applet main loop has ended
or CORE.Window.ready is false, and returns CORE.Window.shouldClose exactly
when the main loop is running and the window is ready: it equals
(!mainLoop || !ready || shouldClose). -/
theorem WindowShouldClose_correct (mainLoop ready shouldClose : Bool) :
    WindowShouldClose mainLoop ready shouldClose = (!mainLoop || !ready || shouldClose) := by
  cases mainLoop <;> cases ready <;> cases shouldClose <;> rfl

/-- C4 counterexample: from the starting state where the device handle is
already EGL_NO_DISPLAY but the surface and context handles are non-null,
one ClosePlatform call leaves the surface and context handles non-null, so
they do not all equal their null sentinels after the call. -/
theorem ClosePlatform_not_all_null_counterexample :
    ¬ ((ClosePlatform ⟨EGL_NO_DISPLAY, 5, 7⟩).1.surface = EGL_NO_SURFACE ∧
       (ClosePlatform ⟨EGL_NO_DISPLAY, 5, 7⟩).1.context = EGL_NO_CONTEXT) := by
  decide

/-- C4 (amended): from every starting state whose device handle is non-null,
one ClosePlatform call resets device, surface and context to their null
sentinels; and from every starting state whatsoever, a second ClosePlatform
call after a first one leaves the handles unchanged and issues no EGL calls. -/
theorem ClosePlatform_nulls_and_idempotent (p : PlatformHandles)
    (h : p.device ≠ EGL_NO_DISPLAY) :
    ((ClosePlatform p).1.device = EGL_NO_DISPLAY ∧
     (ClosePlatform p).1.surface = EGL_NO_SURFACE ∧
     (ClosePlatform p).1.context = EGL_NO_CONTEXT) ∧
    ∀ q : PlatformHandles,
      ClosePlatform (ClosePlatform q).1 = ((ClosePlatform q).1, []) := by
  constructor
  · rw [ClosePlatform, if_pos h]
    refine ⟨rfl, ?_, ?_⟩ <;> dsimp only <;> split <;> simp_all
  · intro q
    rw [ClosePlatform]
    by_cases hq : q.device ≠ EGL_NO_DISPLAY
    · rw [ClosePlatform, if_pos hq]
      simp [EGL_NO_DISPLAY]
    · rw [ClosePlatform, if_neg hq]
      simp only [if_neg hq]

/-- C4 witness: the amended theorem applied at the concrete starting state
device = 3, surface = 5, context = 7. -/
theorem ClosePlatform_nulls_and_idempotent_witness :
    (ClosePlatform ⟨3, 5, 7⟩).1.device = EGL_NO_DISPLAY ∧
    (ClosePlatform ⟨3, 5, 7⟩).1.surface = EGL_NO_SURFACE :=
  ⟨(ClosePlatform_nulls_and_idempotent ⟨3, 5, 7⟩ (by decide)).1.1,
   (ClosePlatform_nulls_and_idempotent ⟨3, 5, 7⟩ (by decide)).1.2.1⟩

/-- C7: for every raw stick reading within the SDK range [-32767, 32767], the
stick axis values written into CORE.Input.Gamepad.axisState lie in [-1, 1],
and both trigger axis values lie in [-1, 1] for every kHeld mask. -/
theorem gamepad_axis_in_range (raw : Int) (kHeld : Nat)
    (h1 : -32767 ≤ raw) (h2 : raw ≤ 32767) :
    (-1 ≤ stickAxisValue raw ∧ stickAxisValue raw ≤ 1) ∧
    (-1 ≤ triggerAxisValue kHeld HidNpadButton_ZL ∧
     triggerAxisValue kHeld HidNpadButton_ZL ≤ 1) ∧
    (-1 ≤ triggerAxisValue kHeld HidNpadButton_ZR ∧
     triggerAxisValue kHeld HidNpadButton_ZR ≤ 1) := by
  have hq1 : (-32767 : ℚ) ≤ (raw : ℚ) := by exact_mod_cast h1
  have hq2 : (raw : ℚ) ≤ 32767 := by exact_mod_cast h2
  refine ⟨⟨?_, ?_⟩, ?_, ?_⟩
  · rw [stickAxisValue, le_div_iff₀ (by norm_num : (0 : ℚ) < 32767)]
    linarith
  · rw [stickAxisValue, div_le_one (by norm_num : (0 : ℚ) < 32767)]
    linarith
  · rw [triggerAxisValue]
    split <;> norm_num
  · rw [triggerAxisValue]
    split <;> norm_num

/-- C7 witness: the range theorem applied at the concrete raw reading 20000
with ZL held (kHeld = 256). -/
theorem gamepad_axis_in_range_witness :
    (-1 ≤ stickAxisValue 20000 ∧ stickAxisValue 20000 ≤ 1) ∧
    (-1 ≤ triggerAxisValue 256 HidNpadButton_ZL ∧
     triggerAxisValue 256 HidNpadButton_ZL ≤ 1) ∧
    (-1 ≤ triggerAxisValue 256 HidNpadButton_ZR ∧
     triggerAxisValue 256 HidNpadButton_ZR ≤ 1) :=
  gamepad_axis_in_range 20000 256 (by norm_num) (by norm_num)

/-- C8: for clock readings at or after the stored base (and below 2^64, the
width of unsigned long long), GetTime returns (reading - base) / 10^9 seconds,
a non-negative value that is monotonically non-decreasing in the reading. -/
theorem GetTime_elapsed_nonneg_monotone (base r1 r2 : Nat)
    (hb : base ≤ r1) (h12 : r1 ≤ r2) (h2 : r2 < 2 ^ 64) :
    GetTime r1 base = ((r1 - base : Nat) : ℚ) / 10 ^ 9 ∧
    0 ≤ GetTime r1 base ∧
    GetTime r1 base ≤ GetTime r2 base := by
  have hsub : ∀ r : Nat, base ≤ r → r < 2 ^ 64 → u64Sub r base = r - base := by
    intro r hbr hr
    rw [u64Sub]
    have h1 : r + 2 ^ 64 - base = (r - base) + 2 ^ 64 := by omega
    rw [h1, Nat.add_mod_right, Nat.mod_eq_of_lt (by omega)]
  have e1 : u64Sub r1 base = r1 - base := hsub r1 hb (by omega)
  have e2 : u64Sub r2 base = r2 - base := hsub r2 (by omega) h2
  refine ⟨?_, ?_, ?_⟩
  · rw [GetTime, e1]
    ring
  · rw [GetTime, e1]
    positivity
  · rw [GetTime, GetTime, e1, e2]
    have hle : ((r1 - base : Nat) : ℚ) ≤ ((r2 - base : Nat) : ℚ) := by
      exact_mod_cast Nat.sub_le_sub_right h12 base
    nlinarith

/-- C8 witness: GetTime evaluated with base 100 and readings 350 then 420. -/
theorem GetTime_elapsed_nonneg_monotone_witness :
    GetTime 350 100 = ((250 : Nat) : ℚ) / 10 ^ 9 ∧
    0 ≤ GetTime 350 100 ∧ GetTime 350 100 ≤ GetTime 420 100 :=
  GetTime_elapsed_nonneg_monotone 100 350 420 (by norm_num) (by norm_num)
    (by norm_num)

/-- C5 counterexample: GetMonitorCount, one of the operations the claim lists,
returns 1 — a value outside the claimed default set {false, zero, empty
string, null} (as an int return it could only match false or zero, i.e. 0). -/
theorem GetMonitorCount_default_counterexample :
    (GetMonitorCount coreSample).2.2 = 1 ∧ (GetMonitorCount coreSample).2.2 ≠ 0 := by
  refine ⟨rfl, by decide⟩

/-- C5 (amended): every unsupported operation logs exactly one warning and
returns a harmless fixed default — 1 for GetMonitorCount and the unit scale
(1, 1) for GetWindowScaleDPI, and false/zero/empty string/null for the rest —
and none of them signals an error to the caller (their return types carry no
error case). -/
theorem unsupported_ops_warn_and_default (c : CoreState) (monitor : Int)
    (mappings : Option String) :
    ((GetMonitorCount c).2.1 = warnLog "GetMonitorCount() not implemented on target platform" ∧
      (GetMonitorCount c).2.2 = 1) ∧
    ((GetCurrentMonitor c).2.1 = warnLog "GetCurrentMonitor() not implemented on target platform" ∧
      (GetCurrentMonitor c).2.2 = 0) ∧
    ((GetMonitorWidth c monitor).2.1 = warnLog "GetMonitorWidth() not implemented on target platform" ∧
      (GetMonitorWidth c monitor).2.2 = 0) ∧
    ((GetMonitorName c monitor).2.1 = warnLog "GetMonitorName() not implemented on target platform" ∧
      (GetMonitorName c monitor).2.2 = "") ∧
    ((GetWindowHandle c).2.1 = warnLog "GetWindowHandle() not implemented on target platform" ∧
      (GetWindowHandle c).2.2 = none) ∧
    ((GetClipboardText c).2.1 = warnLog "GetClipboardText() not implemented on target platform" ∧
      (GetClipboardText c).2.2 = none) ∧
    ((GetWindowScaleDPI c).2.1 = warnLog "GetWindowScaleDPI() not implemented on target platform" ∧
      (GetWindowScaleDPI c).2.2 = (⟨1, 1⟩ : Vector2)) ∧
    ((SetGamepadMappings c mappings).2.1 = warnLog "SetGamepadMappings() not implemented on target platform" ∧
      (SetGamepadMappings c mappings).2.2 = 0) :=
  ⟨⟨rfl, rfl⟩, ⟨rfl, rfl⟩, ⟨rfl, rfl⟩, ⟨rfl, rfl⟩, ⟨rfl, rfl⟩, ⟨rfl, rfl⟩,
   ⟨rfl, rfl⟩, ⟨rfl, rfl⟩⟩

/-- C6: every unsupported accessor or setter stub returns the shared CORE
state unchanged, for every starting CORE state and every argument value. -/
theorem stubs_preserve_core (c : CoreState) (flags : Int) (image : Nat)
    (images : List Nat) (count x y monitor width height cursor : Int)
    (opacity : ℚ) (text : String) (mappings : Option String) :
    (ToggleFullscreen c).1 = c ∧
    (ToggleBorderlessWindowed c).1 = c ∧
    (MaximizeWindow c).1 = c ∧
    (MinimizeWindow c).1 = c ∧
    (RestoreWindow c).1 = c ∧
    (SetWindowState c flags).1 = c ∧
    (ClearWindowState c flags).1 = c ∧
    (SetWindowIcon c image).1 = c ∧
    (SetWindowIcons c images count).1 = c ∧
    (SetWindowPosition c x y).1 = c ∧
    (SetWindowMonitor c monitor).1 = c ∧
    (SetWindowSize c width height).1 = c ∧
    (SetWindowOpacity c opacity).1 = c ∧
    (SetWindowFocused c).1 = c ∧
    (GetWindowHandle c).1 = c ∧
    (GetMonitorCount c).1 = c ∧
    (GetCurrentMonitor c).1 = c ∧
    (GetMonitorPosition c monitor).1 = c ∧
    (GetMonitorWidth c monitor).1 = c ∧
    (GetMonitorHeight c monitor).1 = c ∧
    (GetMonitorPhysicalWidth c monitor).1 = c ∧
    (GetMonitorPhysicalHeight c monitor).1 = c ∧
    (GetMonitorRefreshRate c monitor).1 = c ∧
    (GetMonitorName c monitor).1 = c ∧
    (GetWindowPosition c).1 = c ∧
    (GetWindowScaleDPI c).1 = c ∧
    (SetClipboardText c text).1 = c ∧
    (GetClipboardText c).1 = c ∧
    (SetGamepadMappings c mappings).1 = c ∧
    (SetMouseCursor c cursor).1 = c :=
  ⟨rfl, rfl, rfl, rfl, rfl, rfl, rfl, rfl, rfl, rfl, rfl, rfl, rfl, rfl, rfl,
   rfl, rfl, rfl, rfl, rfl, rfl, rfl, rfl, rfl, rfl, rfl, rfl, rfl, rfl, rfl⟩

/-- Helper: the first n loop iterations do not touch entries at index j ≥ n
and do not change pointCount. -/
theorem pollTouchLoop_preserves_high (touches : Nat → HidTouchState)
    (t : TouchState) (n j : Nat) (hj : n ≤ j) :
    (pollTouchLoop touches t n).position j = t.position j ∧
    (pollTouchLoop touches t n).pointId j = t.pointId j ∧
    (pollTouchLoop touches t n).touchDeltaTime j = t.touchDeltaTime j := by
  induction n with
  | zero => exact ⟨rfl, rfl, rfl⟩
  | succ k ih =>
    have hk : k ≤ j := by omega
    have hne : j ≠ k := by omega
    obtain ⟨h1, h2, h3⟩ := ih hk
    refine ⟨?_, ?_, ?_⟩ <;> simp [pollTouchLoop, store, hne, h1, h2, h3]

/-- Helper: after the first n loop iterations, every entry at index i < n
holds the sampled touch data. -/
theorem pollTouchLoop_writes (touches : Nat → HidTouchState) (t : TouchState)
    (n i : Nat) (hi : i < n) :
    (pollTouchLoop touches t n).position i = ⟨(touches i).x, (touches i).y⟩ ∧
    (pollTouchLoop touches t n).pointId i = (touches i).finger_id ∧
    (pollTouchLoop touches t n).touchDeltaTime i = (touches i).delta_time := by
  induction n with
  | zero => omega
  | succ k ih =>
    by_cases h : i = k
    · subst h
      refine ⟨?_, ?_, ?_⟩ <;> simp [pollTouchLoop, store]
    · have hik : i < k := by omega
      obtain ⟨h1, h2, h3⟩ := ih hik
      refine ⟨?_, ?_, ?_⟩ <;> simp [pollTouchLoop, store, h, h1, h2, h3]

/-- C10: when the touch screen reports a state with count n, exactly the
position/pointId/delta-time entries at indices 0..n-1 are overwritten with the
sampled data, entries at every index j with n ≤ j < MAX_TOUCH_POINTS keep
their earlier-frame values, and pointCount is set to n. -/
theorem pollTouch_stale_entries_kept (count : Nat)
    (touches : Nat → HidTouchState) (t : TouchState) (j : Nat)
    (hj : count ≤ j) (hjmax : j < MAX_TOUCH_POINTS) :
    (pollTouch true count touches t).pointCount = count ∧
    (pollTouch true count touches t).position j = t.position j ∧
    (pollTouch true count touches t).pointId j = t.pointId j ∧
    (pollTouch true count touches t).touchDeltaTime j = t.touchDeltaTime j ∧
    ∀ i, i < count →
      (pollTouch true count touches t).position i = ⟨(touches i).x, (touches i).y⟩ ∧
      (pollTouch true count touches t).pointId i = (touches i).finger_id ∧
      (pollTouch true count touches t).touchDeltaTime i = (touches i).delta_time := by
  obtain ⟨h1, h2, h3⟩ := pollTouchLoop_preserves_high touches t count j hj
  refine ⟨rfl, h1, h2, h3, ?_⟩
  intro i hi
  exact pollTouchLoop_writes touches t count i hi

/-- C10 witness: the theorem applied at count 2, index 5, with concrete touch
samples: index 5 keeps its old position while index 1 gets the sampled one. -/
theorem pollTouch_stale_entries_kept_witness :
    (pollTouch true 2 sampleTouches sampleTouchState).pointCount = 2 ∧
    (pollTouch true 2 sampleTouches sampleTouchState).position 5 =
      sampleTouchState.position 5 :=
  ⟨(pollTouch_stale_entries_kept 2 sampleTouches sampleTouchState 5 (by decide)
      (by decide)).1,
   (pollTouch_stale_entries_kept 2 sampleTouches sampleTouchState 5 (by decide)
      (by decide)).2.1⟩

end RcoreNX
